import Mathlib

/-!
Shallow embedding of the Bias-Aware Temperature Control System
(src/adaptive_fair_thermal_comfort.ipynb) and verification of its
specification claims.

Modelling conventions:
* Python floats are modelled as exact rationals (`ℚ`); every constant in the
  source is an exact decimal, so the embedding is faithful up to the usual
  idealisation of IEEE arithmetic.  The one place where the *float-specific*
  behaviour of the source is itself under scrutiny (division by a zero
  baseline in the relative-improvement statistics) is modelled with the
  explicit `PyFloat` type, which carries the non-finite values `inf`, `ninf`
  and `nan` that numpy produces there.
* Randomness (`np.random.normal`, `np.random.uniform`, `random.random`,
  `random.randint`) is modelled by explicit oracle inputs: each draw is an
  extra argument (or an indexed family of arguments) of the embedded
  function.
* Python exceptions (the `IndexError` of `self.action_space[action_idx]`)
  are modelled with `Except String`; an error propagates outward exactly as
  an uncaught Python exception does.
* `np.round` rounds half to even (`roundHalfEven`); Python `int(...)`
  truncates toward zero (`pyInt`); `np.clip x lo hi = min (max x lo) hi`.
* In-place mutation of the agent/environment objects is modelled by state
  passing: each mutating method returns the updated record.
-/

deriving instance DecidableEq for Except

/-- Occupant group labels used by the thermal-comfort model. -/
inductive Gender where
  | male
  | female
deriving DecidableEq, Repr

/-- Per-group preference parameters (`male_temp_preferences` /
`female_temp_preferences` dictionaries of `ASHRAEThermalComfortModel`). -/
structure Prefs where
  optimal : ℚ
  comfortable_lo : ℚ
  comfortable_hi : ℚ
  sensitivity : ℚ
deriving DecidableEq, Repr

/-- The `self.male_temp_preferences` dictionary from `ASHRAEThermalComfortModel.__init__`. -/
def male_temp_preferences : Prefs :=
  { optimal := 22, comfortable_lo := 20, comfortable_hi := 24, sensitivity := 8/10 }

/-- The `self.female_temp_preferences` dictionary from `ASHRAEThermalComfortModel.__init__`. -/
def female_temp_preferences : Prefs :=
  { optimal := 24, comfortable_lo := 22, comfortable_hi := 26, sensitivity := 12/10 }

/-- The `prefs = self.male_temp_preferences if gender == 'male' else
self.female_temp_preferences` dispatch shared by the three model methods. -/
def prefsFor (gender : Gender) : Prefs :=
  if gender = Gender.male then male_temp_preferences else female_temp_preferences

/-- Binary minimum written with an explicit comparison so that it is
kernel-computable on `ℚ` (Python `min`, and the upper half of `np.clip`). -/
def pymin (a b : ℚ) : ℚ := if a ≤ b then a else b

/-- Binary maximum written with an explicit comparison so that it is
kernel-computable on `ℚ` (Python `max`, and the lower half of `np.clip`). -/
def pymax (a b : ℚ) : ℚ := if a ≤ b then b else a

/-- Absolute value written with an explicit comparison so that it is
kernel-computable on `ℚ` (Python `abs`). -/
def pyabs (q : ℚ) : ℚ := if q < 0 then -q else q

/-- Scalar `np.clip(x, lo, hi)`: `min (max x lo) hi`. -/
def clip (x lo hi : ℚ) : ℚ := pymin (pymax x lo) hi

/-- Integer absolute value by explicit comparison (Python `abs` on an int). -/
def pyabsZ (q : ℤ) : ℤ := if q < 0 then -q else q

/-- Integer minimum by explicit comparison. -/
def pyminZ (a b : ℤ) : ℤ := if a ≤ b then a else b

/-- Integer maximum by explicit comparison. -/
def pymaxZ (a b : ℤ) : ℤ := if a ≤ b then b else a

/-- Integer-scalar `np.clip`: `min (max x lo) hi`. -/
def clipZ (x lo hi : ℤ) : ℤ := pyminZ (pymaxZ x lo) hi

/-- Scalar `np.round`: round half to even (banker's rounding). -/
def roundHalfEven (q : ℚ) : ℤ :=
  let f := ⌊q⌋
  let frac := q - f
  if frac < 1/2 then f
  else if 1/2 < frac then f + 1
  else if f % 2 = 0 then f else f + 1

/-- Python `int(...)` on a float: truncation toward zero. -/
def pyInt (q : ℚ) : ℤ := if 0 ≤ q then ⌊q⌋ else -⌊-q⌋

/-- Method `ASHRAEThermalComfortModel.calculate_thermal_sensation_vote`; the Gaussian
draw `np.random.normal(0, 0.2)` is the oracle argument `noise`. -/
def calculate_thermal_sensation_vote (temperature : ℚ) (gender : Gender) (noise : ℚ) : ℤ :=
  let prefs := prefsFor gender
  let temp_diff := temperature - prefs.optimal
  let base_tsv := temp_diff * prefs.sensitivity * (4/10)
  let tsv := base_tsv + noise
  clipZ (roundHalfEven tsv) (-3) 3

/-- Method `ASHRAEThermalComfortModel.calculate_thermal_comfort_score`. -/
def calculate_thermal_comfort_score (temperature : ℚ) (gender : Gender) : ℚ :=
  let prefs := prefsFor gender
  let temp_diff := pyabs (temperature - prefs.optimal)
  let comfort :=
    if temp_diff ≤ 1 then 1 - temp_diff * (2/10)
    else if temp_diff ≤ 2 then 8/10 - (temp_diff - 1) * (4/10)
    else if temp_diff ≤ 4 then 4/10 - (temp_diff - 2) * (15/100)
    else 1/10
  let comfort2 := if gender = Gender.female ∧ 0 < temp_diff then comfort * (9/10) else comfort
  pymax 0 (pymin 1 comfort2)

/-- Method `ASHRAEThermalComfortModel.calculate_thermal_preference`. -/
def calculate_thermal_preference (temperature : ℚ) (gender : Gender) : ℤ :=
  let prefs := prefsFor gender
  let temp_diff := temperature - prefs.optimal
  if 1 < temp_diff then -1
  else if temp_diff < -1 then 1
  else 0

/-- The `info` dictionary returned by `ASHRAEEnvironment.step`. -/
structure Info where
  male_tsv : ℤ
  female_tsv : ℤ
  male_preference : ℤ
  female_preference : ℤ
  temperature : ℚ
deriving DecidableEq, Repr

/-- State of `ASHRAEEnvironment`.  `femaleRatio` is the stored
`self.female_ratio = 1 - male_ratio`. -/
structure Env where
  maleRatio : ℚ
  femaleRatio : ℚ
  min_temp : ℚ
  max_temp : ℚ
  current_temp : ℚ
deriving DecidableEq, Repr

/-- Constructor `ASHRAEEnvironment.__init__` (defaults `min_temp=16.0`, `max_temp=32.0`;
initial `current_temp = 22.0`). -/
def mkEnv (maleRatio : ℚ) (min_temp : ℚ := 16) (max_temp : ℚ := 32) : Env :=
  { maleRatio := maleRatio, femaleRatio := 1 - maleRatio,
    min_temp := min_temp, max_temp := max_temp, current_temp := 22 }

/-- The fixed `self.action_space = [-1.0, -0.5, 0.0, 0.5, 1.0]`. -/
def action_space : List ℚ := [-1, -1/2, 0, 1/2, 1]

/-- Resolution of a Python sequence index against a length: negative indices
count from the end. -/
def pyIndex (i : ℤ) (n : ℕ) : ℤ := if i < 0 then i + n else i

/-- Python list subscription `l[i]` on an `int` index: negative indices count
from the end; an index outside `[-len, len)` raises `IndexError`. -/
def pyListGet (l : List ℚ) (i : ℤ) : Except String ℚ :=
  if 0 ≤ pyIndex i l.length ∧ pyIndex i l.length < l.length then
    match l.get? (pyIndex i l.length).toNat with
    | some x => Except.ok x
    | none => Except.error "list index out of range"
  else Except.error "list index out of range"

/-- Method `ASHRAEEnvironment.reset`; the draw `np.random.uniform(18.0, 28.0)` is the
oracle argument `u`.  Returns the new temperature and the mutated state. -/
def Env.reset (env : Env) (u : ℚ) : ℚ × Env :=
  (u, { env with current_temp := u })

/-- The per-step noise draws consumed by `ASHRAEEnvironment.step`:
`np.random.normal(0, 0.1)` for the temperature and one
`np.random.normal(0, 0.2)` inside each of the two sensation votes. -/
structure StepNoise where
  temp_noise : ℚ
  male_tsv_noise : ℚ
  female_tsv_noise : ℚ
deriving DecidableEq, Repr

/-- Method `ASHRAEEnvironment.step`.  Returns the mutated environment together with
the Python return tuple `(current_temp, blended_reward, male_comfort,
female_comfort, info)`; an out-of-range `action_idx` propagates the
`IndexError` of `self.action_space[action_idx]`. -/
def Env.step (env : Env) (action_idx : ℤ) (ns : StepNoise) :
    Except String (Env × ℚ × ℚ × ℚ × ℚ × Info) :=
  match pyListGet action_space action_idx with
  | Except.error e => Except.error e
  | Except.ok action =>
    let newTemp := clip (env.current_temp + action + ns.temp_noise) env.min_temp env.max_temp
    let male_comfort := calculate_thermal_comfort_score newTemp Gender.male
    let female_comfort := calculate_thermal_comfort_score newTemp Gender.female
    let male_tsv := calculate_thermal_sensation_vote newTemp Gender.male ns.male_tsv_noise
    let female_tsv := calculate_thermal_sensation_vote newTemp Gender.female ns.female_tsv_noise
    let male_preference := calculate_thermal_preference newTemp Gender.male
    let female_preference := calculate_thermal_preference newTemp Gender.female
    let blended0 := env.maleRatio * male_comfort + env.femaleRatio * female_comfort
    let blended_reward := if newTemp < 18 ∨ 28 < newTemp then blended0 - 3/10 else blended0
    Except.ok ({ env with current_temp := newTemp }, newTemp, blended_reward,
      male_comfort, female_comfort,
      { male_tsv := male_tsv, female_tsv := female_tsv,
        male_preference := male_preference, female_preference := female_preference,
        temperature := newTemp })

/-- Which Python subclass of `QLearningAgent` an agent instance belongs to,
together with the extra constructor fields of that subclass
(`FairnessAwareAgent.fairness_weight`, `BiasedAgent.trained_gender`).
`hybrid` is `HybridAdaptiveAgent`, which only overrides `agent_type`. -/
inductive AgentVariant where
  | qlearning
  | hybrid
  | fairness (fairness_weight : ℚ)
  | biased (trained_gender : Gender)
deriving DecidableEq, Repr

/-- State of a `QLearningAgent` (any of the four variants).  The numpy array
`self.q_table` is modelled as a total function on integer indices; the
program only ever reads and writes indices inside
`[0, state_bins) × [0, action_space_size)`. -/
structure QLearningAgent where
  variant : AgentVariant
  state_bins : ℕ
  action_space_size : ℕ
  alpha : ℚ
  gamma : ℚ
  epsilon : ℚ
  epsilon_decay : ℚ
  min_epsilon : ℚ
  q_table : ℤ → ℤ → ℚ
  total_updates : ℕ

/-- Constructor `QLearningAgent.__init__` with the source defaults
(`state_bins=100, action_space_size=5, alpha=0.1, gamma=0.9, epsilon=0.3,
epsilon_decay=0.995, min_epsilon=0.01`), the zero-initialised Q-table and
`total_updates = 0`. -/
def mkAgent (variant : AgentVariant) (state_bins : ℕ := 100) (action_space_size : ℕ := 5)
    (alpha : ℚ := 1/10) (gamma : ℚ := 9/10) (epsilon : ℚ := 3/10)
    (epsilon_decay : ℚ := 995/1000) (min_epsilon : ℚ := 1/100) : QLearningAgent :=
  { variant := variant, state_bins := state_bins, action_space_size := action_space_size,
    alpha := alpha, gamma := gamma, epsilon := epsilon,
    epsilon_decay := epsilon_decay, min_epsilon := min_epsilon,
    q_table := fun _ _ => 0, total_updates := 0 }

/-- Method `QLearningAgent.discretize_state` with its optional bounds exactly as in
the source: `min_temp: float = 16.0, max_temp: float = 32.0`. -/
def QLearningAgent.discretize_state (ag : QLearningAgent) (temperature : ℚ)
    (min_temp : ℚ := 16) (max_temp : ℚ := 32) : ℤ :=
  let t := clip temperature min_temp max_temp
  let state := pyInt ((t - min_temp) / (max_temp - min_temp) * ((ag.state_bins : ℚ) - 1))
  clipZ state 0 ((ag.state_bins : ℤ) - 1)

/-- Row maximum `np.max(row)` over the first `n` entries of a Q-table row (the row has
`action_space_size` entries). -/
def rowMax (f : ℤ → ℚ) : ℕ → ℚ
  | 0 => 0
  | 1 => f 0
  | n + 2 => pymax (rowMax f (n + 1)) (f (n + 1))

/-- Row argmax `np.argmax(row)` over the first `n` entries of a Q-table row: the first
index attaining the maximum. -/
def argmaxRow (f : ℤ → ℚ) (n : ℕ) : ℤ :=
  (List.range n).foldl (fun best i => if f best < f (i : ℤ) then (i : ℤ) else best) 0

/-- Method `QLearningAgent.choose_action`; the `random.random()` draw is `rnd` and
the `random.randint(0, self.action_space_size - 1)` draw is modelled as
`randPick % action_space_size`. -/
def QLearningAgent.choose_action (ag : QLearningAgent) (state : ℤ) (rnd : ℚ) (randPick : ℤ) : ℤ :=
  if rnd < ag.epsilon then randPick % (ag.action_space_size : ℤ)
  else argmaxRow (ag.q_table state) ag.action_space_size

/-- Method `QLearningAgent.learn`: the tabular Bellman update, the update counter
increment, and the epsilon decay applied when the incremented counter is a
multiple of 500. -/
def QLearningAgent.learn (ag : QLearningAgent) (state action : ℤ) (reward : ℚ)
    (next_state : ℤ) : QLearningAgent :=
  let old_value := ag.q_table state action
  let next_max := rowMax (ag.q_table next_state) ag.action_space_size
  let new_value := old_value + ag.alpha * (reward + ag.gamma * next_max - old_value)
  let q2 := fun s a => if s = state ∧ a = action then new_value else ag.q_table s a
  let tu := ag.total_updates + 1
  let eps :=
    if tu % 500 = 0 then pymax ag.min_epsilon (ag.epsilon * ag.epsilon_decay) else ag.epsilon
  { ag with q_table := q2, total_updates := tu, epsilon := eps }

/-- Method `FairnessAwareAgent.calculate_fairness_reward` (with `self.fairness_weight`
passed explicitly). -/
def calculate_fairness_reward (fairness_weight male_comfort female_comfort : ℚ) : ℚ :=
  let overall_comfort := (male_comfort + female_comfort) / 2
  let fairness_penalty := pyabs (male_comfort - female_comfort)
  overall_comfort - fairness_weight * fairness_penalty

/-- Method `FairnessAwareAgent.learn_with_fairness`. -/
def QLearningAgent.learn_with_fairness (ag : QLearningAgent) (state action : ℤ)
    (male_comfort female_comfort : ℚ) (next_state : ℤ) (fairness_weight : ℚ) : QLearningAgent :=
  let reward := calculate_fairness_reward fairness_weight male_comfort female_comfort
  ag.learn state action reward next_state

/-- The variant dispatch in the body of `train_agent` (the
`isinstance(agent, FairnessAwareAgent) / isinstance(agent, BiasedAgent) /
else` chain): which reward is fed into the Q-table update. -/
def dispatchLearn (ag : QLearningAgent) (state action : ℤ) (reward male_comfort female_comfort : ℚ)
    (next_state : ℤ) : QLearningAgent :=
  match ag.variant with
  | AgentVariant.fairness w =>
      ag.learn_with_fairness state action male_comfort female_comfort next_state w
  | AgentVariant.biased g =>
      if g = Gender.male then ag.learn state action male_comfort next_state
      else ag.learn state action female_comfort next_state
  | _ => ag.learn state action reward next_state

/-- The oracle inputs consumed by one loop iteration (training or
evaluation): the `random.random()` draw of `choose_action`, the
`random.randint` draw of `choose_action`, and the three normal draws of
`Env.step`. -/
structure StepInputs where
  rnd : ℚ
  randPick : ℤ
  ns : StepNoise
deriving DecidableEq, Repr

/-- One iteration of the inner loop of `train_agent`: choose an action, step
the environment, discretize the next temperature (note: with the default
bounds, as in the source `agent.discretize_state(next_temp)`), run the
variant-dispatched update.  Returns the mutated agent and environment, the
next state, and the step observations used by the episode accumulators. -/
def train_step (ag : QLearningAgent) (env : Env) (state : ℤ) (ins : StepInputs) :
    Except String (QLearningAgent × Env × ℤ × ℚ × ℚ × ℚ × ℚ) :=
  match env.step (ag.choose_action state ins.rnd ins.randPick) ins.ns with
  | Except.error e => Except.error e
  | Except.ok (env2, next_temp, reward, male_comfort, female_comfort, _info) =>
    Except.ok (dispatchLearn ag state (ag.choose_action state ins.rnd ins.randPick) reward
        male_comfort female_comfort (ag.discretize_state next_temp),
      env2, ag.discretize_state next_temp, next_temp, reward, male_comfort, female_comfort)

/-- Mean of a list of rationals (`np.mean`; the program only takes means of
nonempty lists, where `ℚ` division by the positive length is exact). -/
def listMean (l : List ℚ) : ℚ := l.sum / (l.length : ℚ)

/-- The per-episode metric lists accumulated by `train_agent`. -/
structure TrainMetrics where
  rewards : List ℚ
  male_comforts : List ℚ
  female_comforts : List ℚ
  fairness_gaps : List ℚ
  temperatures : List ℚ
deriving Repr

/-- The empty `metrics` dictionary at the start of `train_agent`. -/
def emptyTrainMetrics : TrainMetrics :=
  { rewards := [], male_comforts := [], female_comforts := [], fairness_gaps := [],
    temperatures := [] }

/-- The inner `for step in range(steps_per_episode)` loop of `train_agent`.
`i` is the index of the next step (used to address the oracle `ins`), `k`
the number of steps still to run; the accumulator carries
`(episode_reward, episode_male_comfort, episode_female_comfort,
episode_temps)`.  An exception aborts the whole run, as in Python. -/
def train_inner (ag : QLearningAgent) (env : Env) (state : ℤ) (ins : ℕ → StepInputs)
    (i : ℕ) (acc : ℚ × ℚ × ℚ × List ℚ) :
    (k : ℕ) → Except String (QLearningAgent × Env × ℤ × (ℚ × ℚ × ℚ × List ℚ))
  | 0 => Except.ok (ag, env, state, acc)
  | k + 1 =>
    match train_step ag env state (ins i) with
    | Except.error e => Except.error e
    | Except.ok (ag2, env2, next_state, next_temp, reward, male_comfort, female_comfort) =>
      let acc2 := (acc.1 + reward, acc.2.1 + male_comfort, acc.2.2.1 + female_comfort,
        acc.2.2.2 ++ [next_temp])
      train_inner ag2 env2 next_state ins (i + 1) acc2 k

/-- The outer `for episode in range(episodes)` loop of `train_agent`:
reset the environment (oracle `resetDraw e`), discretize the initial state
(again with the default bounds), run the inner loop, and append the episode
means to the metric lists. -/
def train_outer (env0 : Env) (steps_per_episode : ℕ) (resetDraw : ℕ → ℚ)
    (ins : ℕ → ℕ → StepInputs) :
    QLearningAgent → Env → TrainMetrics → ℕ → (k : ℕ) →
      Except String (QLearningAgent × Env × TrainMetrics)
  | ag, env, m, _, 0 => Except.ok (ag, env, m)
  | ag, env, m, e, k + 1 =>
    let (state_temp, env1) := env.reset (resetDraw e)
    let state := ag.discretize_state state_temp
    match train_inner ag env1 state (ins e) 0 (0, 0, 0, []) steps_per_episode with
    | Except.error err => Except.error err
    | Except.ok (ag2, env2, _state2, (er, emc, efc, temps)) =>
      let m2 : TrainMetrics :=
        { rewards := m.rewards ++ [er / (steps_per_episode : ℚ)],
          male_comforts := m.male_comforts ++ [emc / (steps_per_episode : ℚ)],
          female_comforts := m.female_comforts ++ [efc / (steps_per_episode : ℚ)],
          fairness_gaps := m.fairness_gaps ++ [pyabs (emc - efc) / (steps_per_episode : ℚ)],
          temperatures := m.temperatures ++ [listMean temps] }
      train_outer env0 steps_per_episode resetDraw ins ag2 env2 m2 (e + 1) k

/-- Function `train_agent(agent, env, episodes, steps_per_episode)` (timing and
printing omitted); any exception during a step aborts the run and
propagates, as in Python. -/
def train_agent (ag : QLearningAgent) (env : Env) (episodes steps_per_episode : ℕ)
    (resetDraw : ℕ → ℚ) (ins : ℕ → ℕ → StepInputs) :
    Except String (QLearningAgent × Env × TrainMetrics) :=
  train_outer env steps_per_episode resetDraw ins ag env emptyTrainMetrics 0 episodes

/-- The `all_metrics` raw per-step observation lists collected by
`evaluate_agent_comprehensive`. -/
structure EvalMetrics where
  temperatures : List ℚ
  male_comforts : List ℚ
  female_comforts : List ℚ
  male_tsvs : List ℤ
  female_tsvs : List ℤ
  male_preferences : List ℤ
  female_preferences : List ℤ
deriving DecidableEq, Repr

/-- The empty `all_metrics` dictionary at the start of evaluation. -/
def emptyEvalMetrics : EvalMetrics :=
  { temperatures := [], male_comforts := [], female_comforts := [], male_tsvs := [],
    female_tsvs := [], male_preferences := [], female_preferences := [] }

/-- The per-step appends inside the evaluation loop. -/
def pushEvalObs (m : EvalMetrics) (next_temp male_comfort female_comfort : ℚ)
    (info : Info) : EvalMetrics :=
  { temperatures := m.temperatures ++ [next_temp],
    male_comforts := m.male_comforts ++ [male_comfort],
    female_comforts := m.female_comforts ++ [female_comfort],
    male_tsvs := m.male_tsvs ++ [info.male_tsv],
    female_tsvs := m.female_tsvs ++ [info.female_tsv],
    male_preferences := m.male_preferences ++ [info.male_preference],
    female_preferences := m.female_preferences ++ [info.female_preference] }

/-- One iteration of the inner evaluation loop: choose an action (the agent's
epsilon has been forced to 0 by the caller), step the environment,
discretize the next temperature with the default bounds, record the raw
observations.  No learning update is performed. -/
def eval_step (ag : QLearningAgent) (env : Env) (state : ℤ) (m : EvalMetrics)
    (ins : StepInputs) : Except String (Env × ℤ × EvalMetrics) :=
  match env.step (ag.choose_action state ins.rnd ins.randPick) ins.ns with
  | Except.error e => Except.error e
  | Except.ok (env2, next_temp, _reward, male_comfort, female_comfort, info) =>
    Except.ok (env2, ag.discretize_state next_temp,
      pushEvalObs m next_temp male_comfort female_comfort info)

/-- The inner `for step in range(steps_per_episode)` loop of evaluation. -/
def eval_inner (ag : QLearningAgent) (ins : ℕ → StepInputs) :
    Env → ℤ → EvalMetrics → ℕ → (k : ℕ) → Except String (Env × ℤ × EvalMetrics)
  | env, state, m, _, 0 => Except.ok (env, state, m)
  | env, state, m, i, k + 1 =>
    match eval_step ag env state m (ins i) with
    | Except.error e => Except.error e
    | Except.ok (env2, state2, m2) => eval_inner ag ins env2 state2 m2 (i + 1) k

/-- The outer `for episode in range(episodes)` loop of evaluation. -/
def eval_outer (ag : QLearningAgent) (steps_per_episode : ℕ) (resetDraw : ℕ → ℚ)
    (ins : ℕ → ℕ → StepInputs) : Env → EvalMetrics → ℕ → (k : ℕ) → Except String EvalMetrics
  | _, m, _, 0 => Except.ok m
  | env, m, e, k + 1 =>
    let (state_temp, env1) := env.reset (resetDraw e)
    let state := ag.discretize_state state_temp
    match eval_inner ag (ins e) env1 state m 0 steps_per_episode with
    | Except.error err => Except.error err
    | Except.ok (env2, _state2, m2) => eval_outer ag steps_per_episode resetDraw ins env2 m2 (e + 1) k

/-- Helper `target_comfort_from_tsv` nested in `calculate_thermal_comfort_accuracy`. -/
def target_comfort_from_tsv (tsv : ℤ) : ℚ :=
  if pyabsZ tsv ≤ 1 then 8/10
  else if pyabsZ tsv = 2 then 4/10
  else 1/10

/-- Function `calculate_thermal_comfort_accuracy(metrics)`. -/
def calculate_thermal_comfort_accuracy (m : EvalMetrics) : ℚ :=
  let male_target := m.male_tsvs.map target_comfort_from_tsv
  let female_target := m.female_tsvs.map target_comfort_from_tsv
  let male_accuracy :=
    1 - listMean (List.zipWith (fun c t => pyabs (c - t)) m.male_comforts male_target)
  let female_accuracy :=
    1 - listMean (List.zipWith (fun c t => pyabs (c - t)) m.female_comforts female_target)
  let male_accuracy := pymax 0 (pymin 1 male_accuracy)
  let female_accuracy := pymax 0 (pymin 1 female_accuracy)
  (male_accuracy + female_accuracy) / 2

/-- Function `calculate_temperature_control_accuracy(metrics)`: the fraction of
recorded temperatures inside the ASHRAE band `[20, 26]`. -/
def calculate_temperature_control_accuracy (m : EvalMetrics) : ℚ :=
  ((m.temperatures.filter fun t => 20 ≤ t ∧ t ≤ 26).length : ℚ) / (m.temperatures.length : ℚ)

/-- Helper `expected_preference` nested in `calculate_preference_accuracy`. -/
def expected_preference (tsv : ℤ) : ℤ :=
  if 1 < tsv then -1
  else if tsv < -1 then 1
  else 0

/-- Function `calculate_preference_accuracy(metrics)`. -/
def calculate_preference_accuracy (m : EvalMetrics) : ℚ :=
  let male_expected := m.male_tsvs.map expected_preference
  let female_expected := m.female_tsvs.map expected_preference
  let male_matches := List.zipWith (fun p q => if p = q then (1 : ℚ) else 0)
    m.male_preferences male_expected
  let female_matches := List.zipWith (fun p q => if p = q then (1 : ℚ) else 0)
    m.female_preferences female_expected
  (listMean male_matches + listMean female_matches) / 2

/-- The summary dictionary computed at the end of
`evaluate_agent_comprehensive`.  The two fields derived from a real square
root (`temp_std` and `temperature_stability = 1/(1+std)`) are not
representable in the rational embedding and are omitted; no claim refers to
them. -/
structure EvalResults where
  avg_temperature : ℚ
  avg_male_comfort : ℚ
  avg_female_comfort : ℚ
  fairness_gap : ℚ
  male_satisfaction_rate : ℚ
  female_satisfaction_rate : ℚ
  overall_satisfaction_rate : ℚ
  thermal_comfort_accuracy : ℚ
  temperature_control_accuracy : ℚ
  preference_prediction_accuracy : ℚ
  overall_system_accuracy : ℚ
  detailed_metrics : EvalMetrics
deriving Repr

/-- The `results` computation of `evaluate_agent_comprehensive`, including
the weighted `overall_system_accuracy` fill-in. -/
def computeEvalResults (m : EvalMetrics) : EvalResults :=
  let satisfied := fun (l : List ℚ) =>
    ((l.filter fun c => 3/5 < c).length : ℚ) / (l.length : ℚ)
  let thermal := calculate_thermal_comfort_accuracy m
  let control := calculate_temperature_control_accuracy m
  let pref := calculate_preference_accuracy m
  { avg_temperature := listMean m.temperatures,
    avg_male_comfort := listMean m.male_comforts,
    avg_female_comfort := listMean m.female_comforts,
    fairness_gap := pyabs (listMean m.male_comforts - listMean m.female_comforts),
    male_satisfaction_rate := satisfied m.male_comforts,
    female_satisfaction_rate := satisfied m.female_comforts,
    overall_satisfaction_rate := satisfied (m.male_comforts ++ m.female_comforts),
    thermal_comfort_accuracy := thermal,
    temperature_control_accuracy := control,
    preference_prediction_accuracy := pref,
    overall_system_accuracy := (4/10) * thermal + (3/10) * control + (3/10) * pref,
    detailed_metrics := m }

/-- The `agent.epsilon = 0.0` assignment at the top of
`evaluate_agent_comprehensive` ("pure exploitation for evaluation"): the
agent state in force throughout the evaluation loop. -/
def evalModeAgent (ag : QLearningAgent) : QLearningAgent := { ag with epsilon := 0 }

/-- Function `evaluate_agent_comprehensive(agent, male_ratio, episodes,
steps_per_episode)`.  Returns the Python return value (or the propagated
exception) together with the final state of the caller's agent object: the
source saves `original_epsilon`, assigns `agent.epsilon = 0.0`, runs the
loop, and restores `agent.epsilon = original_epsilon` only on the straight
path after the loop — there is no `try/finally` around it, so when the
loop raises, the caller is left with the epsilon-0 agent. -/
def evaluate_agent_comprehensive (ag : QLearningAgent) (maleRatio : ℚ)
    (episodes steps_per_episode : ℕ) (resetDraw : ℕ → ℚ) (ins : ℕ → ℕ → StepInputs) :
    Except String EvalResults × QLearningAgent :=
  let env := mkEnv maleRatio
  let original_epsilon := ag.epsilon
  let ag1 := evalModeAgent ag
  match eval_outer ag1 steps_per_episode resetDraw ins env emptyEvalMetrics 0 episodes with
  | Except.error e => (Except.error e, ag1)
  | Except.ok m => (Except.ok (computeEvalResults m), { ag1 with epsilon := original_epsilon })

/-- A numpy `float64` scalar at the granularity this development needs:
either an (idealised, exact) finite value or one of the non-finite values
`inf`, `-inf`, `nan`.  The evaluation pipeline produces the fairness gaps as
`np.float64` values (`np.mean` returns `np.float64`), so the statistics
layer computes with these semantics — and the module-level
`warnings.filterwarnings('ignore')` suppresses the divide-by-zero /
invalid-value `RuntimeWarning`s numpy would otherwise emit. -/
inductive PyFloat where
  | fin (q : ℚ)
  | inf
  | ninf
  | nan
deriving DecidableEq, Repr

/-- numpy `float64` subtraction. -/
def PyFloat.sub : PyFloat → PyFloat → PyFloat
  | PyFloat.fin a, PyFloat.fin b => PyFloat.fin (a - b)
  | PyFloat.fin _, PyFloat.inf => PyFloat.ninf
  | PyFloat.fin _, PyFloat.ninf => PyFloat.inf
  | PyFloat.inf, PyFloat.fin _ => PyFloat.inf
  | PyFloat.inf, PyFloat.ninf => PyFloat.inf
  | PyFloat.ninf, PyFloat.fin _ => PyFloat.ninf
  | PyFloat.ninf, PyFloat.inf => PyFloat.ninf
  | PyFloat.inf, PyFloat.inf => PyFloat.nan
  | PyFloat.ninf, PyFloat.ninf => PyFloat.nan
  | _, _ => PyFloat.nan

/-- numpy `float64` multiplication. -/
def PyFloat.mul : PyFloat → PyFloat → PyFloat
  | PyFloat.fin a, PyFloat.fin b => PyFloat.fin (a * b)
  | PyFloat.fin a, PyFloat.inf =>
    if 0 < a then PyFloat.inf else if a < 0 then PyFloat.ninf else PyFloat.nan
  | PyFloat.fin a, PyFloat.ninf =>
    if 0 < a then PyFloat.ninf else if a < 0 then PyFloat.inf else PyFloat.nan
  | PyFloat.inf, PyFloat.fin b =>
    if 0 < b then PyFloat.inf else if b < 0 then PyFloat.ninf else PyFloat.nan
  | PyFloat.ninf, PyFloat.fin b =>
    if 0 < b then PyFloat.ninf else if b < 0 then PyFloat.inf else PyFloat.nan
  | PyFloat.inf, PyFloat.inf => PyFloat.inf
  | PyFloat.inf, PyFloat.ninf => PyFloat.ninf
  | PyFloat.ninf, PyFloat.inf => PyFloat.ninf
  | PyFloat.ninf, PyFloat.ninf => PyFloat.inf
  | _, _ => PyFloat.nan

/-- numpy `float64` division: a finite nonzero value divided by (positive)
zero gives a signed infinity, `0.0/0.0` gives `nan`, and both only produce a
suppressed warning, never an exception. -/
def PyFloat.div : PyFloat → PyFloat → PyFloat
  | PyFloat.fin a, PyFloat.fin b =>
    if b = 0 then
      if 0 < a then PyFloat.inf else if a < 0 then PyFloat.ninf else PyFloat.nan
    else PyFloat.fin (a / b)
  | PyFloat.fin _, PyFloat.inf => PyFloat.fin 0
  | PyFloat.fin _, PyFloat.ninf => PyFloat.fin 0
  | PyFloat.inf, PyFloat.fin b => if b < 0 then PyFloat.ninf else PyFloat.inf
  | PyFloat.ninf, PyFloat.fin b => if b < 0 then PyFloat.inf else PyFloat.ninf
  | _, _ => PyFloat.nan

/-- The relative fairness-gap improvement computed (identically) at
`create_comprehensive_visualizations`
(`improvement = (biased_gap - fairness_gap) / biased_gap * 100`) and at
`print_comprehensive_analysis`
(`hybrid_improvement / fairness_improvement = (biased_gap - other_gap) /
biased_gap * 100`), with the numpy `float64` semantics of the operands. -/
def relative_gap_improvement (biased_gap other_gap : PyFloat) : PyFloat :=
  PyFloat.mul (PyFloat.div (PyFloat.sub biased_gap other_gap) biased_gap) (PyFloat.fin 100)

/-- Constructor-head test for `Except`: did the computation return normally
(`true`) or raise (`false`)? -/
def exceptOk {ε α : Type} : Except ε α → Bool
  | Except.ok _ => true
  | Except.error _ => false

/-- Iterated `learn` on a list of `(state, action, reward, next_state)`
update requests: the agent state after an arbitrary training history. -/
def learnSeq (ag : QLearningAgent) (us : List (ℤ × ℤ × ℚ × ℤ)) : QLearningAgent :=
  us.foldl (fun a u => a.learn u.1 u.2.1 u.2.2.1 u.2.2.2) ag

/-- Iterated (n-fold) repetition of the same `learn(s, a, r, ns)` call. -/
def learnIter (ag : QLearningAgent) (s a : ℤ) (r : ℚ) (ns : ℤ) : ℕ → QLearningAgent
  | 0 => ag
  | n + 1 => (learnIter ag s a r ns n).learn s a r ns

/-- Modelled from the spec's words for claim C2, to be compared with the
source's `discretize_state`: clamp, map linearly onto `[0, state_bins-1]`,
round to the *nearest* integer, reclamp. -/
def discretizeState_round (ag : QLearningAgent) (temperature : ℚ)
    (min_temp max_temp : ℚ) : ℤ :=
  let t := clip temperature min_temp max_temp
  let state := round ((t - min_temp) / (max_temp - min_temp) * ((ag.state_bins : ℚ) - 1))
  clipZ state 0 ((ag.state_bins : ℤ) - 1)

/-- Modelled from the claim's words for C6, to be compared with the source's
`calculate_thermal_comfort_score`: the piecewise-linear decay in the
absolute deviation from the group optimum, the 0.9 secondary-group penalty
at positive deviation, and the final clamp to `[0, 1]`. -/
def comfortScore_spec (t : ℚ) (g : Gender) : ℚ :=
  let optimal : ℚ := if g = Gender.male then 22 else 24
  let dev := |t - optimal|
  let base :=
    if dev ≤ 1 then 1 - (2/10) * dev
    else if dev ≤ 2 then 8/10 - (4/10) * (dev - 1)
    else if dev ≤ 4 then 4/10 - (15/100) * (dev - 2)
    else 1/10
  let val := if g = Gender.female ∧ 0 < dev then (9/10) * base else base
  max 0 (min 1 val)

/-- Test fixture: an agent built with all constructor defaults
(`QLearningAgent()`). -/
def dAg : QLearningAgent := mkAgent AgentVariant.qlearning

/-- Test fixture: a constant step-input oracle.  `rnd = 1` makes the
epsilon-greedy branch deterministic (`1 < epsilon` is false for any
`epsilon ≤ 1`, so the argmax branch is taken); all noise draws are 0. -/
def cIns : ℕ → ℕ → StepInputs := fun _ _ =>
  { rnd := 1, randPick := 0,
    ns := { temp_noise := 0, male_tsv_noise := 0, female_tsv_noise := 0 } }

/-- Test fixture: a constant episode-reset oracle placing the environment at
22 degrees. -/
def cRo : ℕ → ℚ := fun _ => 22

/-- Test fixture: zero noise for a single environment step. -/
def zNoise : StepNoise := { temp_noise := 0, male_tsv_noise := 0, female_tsv_noise := 0 }

/-- Test fixture: an agent whose `action_space_size` (a public constructor
parameter) is 6 while the environment's fixed action list has 5 entries,
and whose Q-table prefers column 5 — as can arise after training, since
`choose_action` draws `random.randint(0, 5)`.  Greedy action selection
returns index 5 and `env.step(5)` raises `IndexError`. -/
def agent6 : QLearningAgent :=
  { mkAgent AgentVariant.qlearning with
      action_space_size := 6
      q_table := fun _ a => if a = 5 then 1 else 0 }

/-- Test fixture: an environment with non-default hard bounds `[20, 30]`
(exercising that state discretization ignores them). -/
def dEnv2030 : Env := { mkEnv (1/2) 20 30 with current_temp := 22 }

/-- Test fixture: the environment state after the witness step on
`dEnv2030` (temperature moved from 22 to 21 by action delta -1). -/
def dEnv2030stepped : Env :=
  { maleRatio := 1/2, femaleRatio := 1/2, min_temp := 20, max_temp := 30, current_temp := 21 }

/-- Test fixture: the `info` record produced at temperature 21 with zero
noise. -/
def dInfo21 : Info :=
  { male_tsv := 0, female_tsv := -1, male_preference := 0, female_preference := 1,
    temperature := 21 }

/-!
Helper lemmas.
-/

theorem pyabs_eq_abs (q : ℚ) : pyabs q = |q| := by
  unfold pyabs
  split
  · rw [abs_of_neg]; assumption
  · rw [abs_of_nonneg]; linarith [not_lt.mp (by assumption : ¬ q < 0)]

theorem pymin_eq_min (a b : ℚ) : pymin a b = min a b := (min_def a b).symm

theorem pymax_eq_max (a b : ℚ) : pymax a b = max a b := (max_def a b).symm

theorem clip_lower (x lo hi : ℚ) (h : lo ≤ hi) : lo ≤ clip x lo hi := by
  unfold clip pymin pymax
  split_ifs <;> linarith

theorem clip_upper (x lo hi : ℚ) : clip x lo hi ≤ hi := by
  unfold clip pymin pymax
  split_ifs <;> linarith

theorem pyListGet_err (l : List ℚ) (i : ℤ)
    (h : i < -(l.length : ℤ) ∨ (l.length : ℤ) ≤ i) :
    pyListGet l i = Except.error "list index out of range" := by
  unfold pyListGet pyIndex
  split_ifs with h1 h2 h2 <;> first | rfl | (exfalso; omega)

theorem pyListGet_ok (l : List ℚ) (i : ℤ) (h0 : 0 ≤ i) (h1 : i < (l.length : ℤ)) :
    ∃ x, l.get? i.toNat = some x ∧ pyListGet l i = Except.ok x := by
  have hlen : i.toNat < l.length := by omega
  have hx : l.get? i.toNat = some (l.get ⟨i.toNat, hlen⟩) := List.get?_eq_get hlen
  refine ⟨l.get ⟨i.toNat, hlen⟩, hx, ?_⟩
  have hidx : pyIndex i l.length = i := by unfold pyIndex; split_ifs <;> omega
  unfold pyListGet
  rw [hidx, if_pos ⟨h0, h1⟩, hx]

theorem pyListGet_ok_neg (l : List ℚ) (i : ℤ) (h0 : -(l.length : ℤ) ≤ i) (h1 : i < 0) :
    ∃ x, l.get? (i + (l.length : ℤ)).toNat = some x ∧ pyListGet l i = Except.ok x := by
  have hlen : (i + (l.length : ℤ)).toNat < l.length := by omega
  have hx : l.get? (i + (l.length : ℤ)).toNat =
      some (l.get ⟨(i + (l.length : ℤ)).toNat, hlen⟩) := List.get?_eq_get hlen
  refine ⟨l.get ⟨(i + (l.length : ℤ)).toNat, hlen⟩, hx, ?_⟩
  have hidx : pyIndex i l.length = i + (l.length : ℤ) := by
    unfold pyIndex
    rw [if_pos h1]
  unfold pyListGet
  rw [hidx, if_pos ⟨by omega, by omega⟩, hx]

theorem step_exceptOk_eq (env : Env) (i : ℤ) (ns : StepNoise) :
    exceptOk (env.step i ns) = exceptOk (pyListGet action_space i) := by
  unfold Env.step
  rcases h : pyListGet action_space i with e | a <;> (simp only [h]; rfl)

/-- C4 (amended): `Environment.step(actionIndex)` fails with the
out-of-range `IndexError` exactly when `actionIndex < -5` or
`actionIndex ≥ 5`: Python's negative indexing makes `-5 .. -1` valid
aliases of elements `0 .. 4` of the five-element action list, so — contrary
to the claim as stated — not every index outside `[0, 4]` fails; every
index inside `[0, 4]` indeed does not fail. -/
theorem step_out_of_range_iff (env : Env) (i : ℤ) (ns : StepNoise) :
    exceptOk (env.step i ns) = false ↔ (i < -5 ∨ 5 ≤ i) := by
  rw [step_exceptOk_eq]
  have hlen : (action_space.length : ℤ) = 5 := by decide
  constructor
  · intro h
    by_contra hc
    push_neg at hc
    rcases le_or_lt 0 i with h0 | h0
    · obtain ⟨x, _, hget⟩ := pyListGet_ok action_space i h0 (by omega)
      rw [hget] at h
      exact Bool.noConfusion h
    · obtain ⟨x, _, hget⟩ := pyListGet_ok_neg action_space i (by omega) h0
      rw [hget] at h
      exact Bool.noConfusion h
  · intro h
    rw [pyListGet_err action_space i (by omega)]
    rfl

/-- Counterexample to C4 as stated: `actionIndex = -1` lies outside the
index range `[0, 4]` of the fixed five-element action set, yet
`Environment.step(-1)` does not fail — Python resolves the negative index
to the last action, `+1.0`. -/
theorem step_negative_index_cex :
    exceptOk ((mkEnv (1/2)).step (-1) zNoise) = true ∧
    pyListGet action_space (-1) = Except.ok 1 := by
  constructor
  · decide!
  · decide!

/-- C2 (amended): `discretize_state` clamps the temperature to the bounds,
linearly maps it onto `[0, state_bins-1]`, *truncates* the mapped value
toward zero — which on the clamped (hence nonnegative) mapped value is the
floor, not rounding to nearest — and reclamps the result to
`[0, state_bins-1]`. -/
theorem discretize_state_floor (ag : QLearningAgent) (t min_temp max_temp : ℚ)
    (hb : min_temp < max_temp) (hn : 1 ≤ ag.state_bins) :
    ag.discretize_state t min_temp max_temp =
      clipZ ⌊(clip t min_temp max_temp - min_temp) / (max_temp - min_temp) *
        ((ag.state_bins : ℚ) - 1)⌋ 0 ((ag.state_bins : ℤ) - 1) := by
  simp only [QLearningAgent.discretize_state, pyInt]
  have hlo : min_temp ≤ clip t min_temp max_temp := clip_lower t min_temp max_temp hb.le
  have hnum : 0 ≤ (clip t min_temp max_temp - min_temp) / (max_temp - min_temp) :=
    div_nonneg (by linarith) (by linarith)
  have hbins : (0 : ℚ) ≤ (ag.state_bins : ℚ) - 1 := by
    have : (1 : ℚ) ≤ (ag.state_bins : ℚ) := by exact_mod_cast hn
    linarith
  have hmap : 0 ≤ (clip t min_temp max_temp - min_temp) / (max_temp - min_temp) *
      ((ag.state_bins : ℚ) - 1) := mul_nonneg hnum hbins
  rw [if_pos hmap]

/-- Counterexample to C2 as stated: at temperature 16.1 with the default
bounds and 100 state bins, the linearly mapped value is
`(0.1/16)*99 = 0.61875`; rounding to nearest gives bin 1, but the source's
`int(...)` truncation gives bin 0, so the index is not obtained by rounding
to nearest. -/
theorem discretize_state_round_cex :
    dAg.discretize_state (161/10) = 0 ∧
    discretizeState_round dAg (161/10) 16 32 = 1 ∧
    ((161/10 : ℚ) - 16) / (32 - 16) * ((dAg.state_bins : ℚ) - 1) = 99/160 := by
  refine ⟨by decide!, by decide!, by decide!⟩

/-- Witness for the amended C2 theorem at the counterexample input. -/
theorem discretize_state_floor_witness :
    (16 : ℚ) < 32 ∧ 1 ≤ dAg.state_bins ∧
    dAg.discretize_state (161/10) 16 32 =
      clipZ ⌊(clip (161/10) 16 32 - 16) / (32 - 16) * ((dAg.state_bins : ℚ) - 1)⌋ 0
        ((dAg.state_bins : ℤ) - 1) :=
  ⟨by decide!, by decide, discretize_state_floor dAg (161/10) 16 32 (by decide!) (by decide)⟩

/-- C5 (amended): the relative fairness-gap improvement computations at
`print_comprehensive_analysis` and `create_comprehensive_visualizations`
divide by the baseline fairness gap with *no* guard: on a zero baseline the
unguarded numpy division silently produces a non-finite number (`-inf` when
the other gap is positive, `+inf` when it is negative, `nan` when both are
zero, with the `RuntimeWarning` suppressed by the module-level warnings
filter) instead of reporting the undefined case explicitly. -/
theorem improvement_unguarded (b o : ℚ) :
    relative_gap_improvement (PyFloat.fin b) (PyFloat.fin o) =
      if b = 0 then
        (if o < 0 then PyFloat.inf else if 0 < o then PyFloat.ninf else PyFloat.nan)
      else PyFloat.fin ((b - o) / b * 100) := by
  have hsub : PyFloat.sub (PyFloat.fin b) (PyFloat.fin o) = PyFloat.fin (b - o) := rfl
  unfold relative_gap_improvement
  rw [hsub]
  by_cases hb : b = 0
  · subst hb
    rw [if_pos rfl]
    rcases lt_trichotomy o 0 with ho | ho | ho
    · have hdiv : PyFloat.div (PyFloat.fin (0 - o)) (PyFloat.fin 0) = PyFloat.inf := by
        simp only [PyFloat.div]
        rw [if_pos trivial, if_pos (by linarith : (0 : ℚ) < 0 - o)]
      rw [hdiv, if_pos ho]
      decide!
    · subst ho
      rw [if_neg (by norm_num : ¬ (0 : ℚ) < 0), if_neg (by norm_num : ¬ (0 : ℚ) < 0)]
      decide!
    · have hdiv : PyFloat.div (PyFloat.fin (0 - o)) (PyFloat.fin 0) = PyFloat.ninf := by
        simp only [PyFloat.div]
        rw [if_pos trivial, if_neg (by linarith : ¬ (0 : ℚ) < 0 - o),
          if_pos (by linarith : 0 - o < 0)]
      rw [hdiv, if_neg (by linarith : ¬ o < 0), if_pos ho]
      decide!
  · have hdiv : PyFloat.div (PyFloat.fin (b - o)) (PyFloat.fin b) =
        PyFloat.fin ((b - o) / b) := by
      simp only [PyFloat.div]
      rw [if_neg hb]
    rw [hdiv, if_neg hb]
    rfl

/-- Counterexample to C5 as stated: with a zero baseline fairness gap the
improvement computation is an unguarded division — it yields `-inf`
(other gap 0.2) or `nan` (other gap 0), silently, rather than an explicitly
reported undefined result. -/
theorem improvement_div_zero_cex :
    relative_gap_improvement (PyFloat.fin 0) (PyFloat.fin (1/5)) = PyFloat.ninf ∧
    relative_gap_improvement (PyFloat.fin 0) (PyFloat.fin 0) = PyFloat.nan := by
  refine ⟨by decide!, by decide!⟩

/-- C6 (confirmed): for every temperature and group,
`calculate_thermal_comfort_score` equals the claimed piecewise-linear
function of the absolute deviation from the group optimum — with the
0.9 multiplicative penalty for the "female" group exactly when the
deviation is positive, and the final clamp to `[0, 1]` — and at
temperature 22.0 the group-A ("male", optimum 22.0) comfort is 1.0 while
the group-B ("female", optimum 24.0) comfort is 0.36. -/
theorem comfort_score_matches_spec :
    (∀ (t : ℚ) (g : Gender), calculate_thermal_comfort_score t g = comfortScore_spec t g) ∧
    calculate_thermal_comfort_score 22 Gender.male = 1 ∧
    calculate_thermal_comfort_score 22 Gender.female = 9/25 := by
  refine ⟨?_, by decide!, by decide!⟩
  intro t g
  cases g <;>
    simp only [calculate_thermal_comfort_score, comfortScore_spec, prefsFor,
      male_temp_preferences, female_temp_preferences, pyabs_eq_abs, pymin_eq_min,
      pymax_eq_max, if_true, if_false, reduceCtorEq, ite_true, ite_false] <;>
    (norm_num; split_ifs <;> ring_nf)

/-- C9 (confirmed): the training-loop update dispatch feeds the Q-table
update exactly the reward the claim describes for each agent variant — the
biased variant its configured group's own comfort, the fairness-aware
variant `(comfortA+comfortB)/2 - w*|comfortA-comfortB|`, and every other
variant the environment's blended reward — and
`calculate_fairness_reward(c1, c2) = (c1+c2)/2 - w*|c1-c2|` for all
`c1, c2, w`. -/
theorem train_reward_dispatch :
    (∀ (ag : QLearningAgent) (s a : ℤ) (r mc fc : ℚ) (ns : ℤ) (w : ℚ),
      dispatchLearn { ag with variant := AgentVariant.biased Gender.male } s a r mc fc ns =
        { ag with variant := AgentVariant.biased Gender.male }.learn s a mc ns ∧
      dispatchLearn { ag with variant := AgentVariant.biased Gender.female } s a r mc fc ns =
        { ag with variant := AgentVariant.biased Gender.female }.learn s a fc ns ∧
      dispatchLearn { ag with variant := AgentVariant.fairness w } s a r mc fc ns =
        { ag with variant := AgentVariant.fairness w }.learn s a
          ((mc + fc) / 2 - w * |mc - fc|) ns ∧
      dispatchLearn { ag with variant := AgentVariant.hybrid } s a r mc fc ns =
        { ag with variant := AgentVariant.hybrid }.learn s a r ns ∧
      dispatchLearn { ag with variant := AgentVariant.qlearning } s a r mc fc ns =
        { ag with variant := AgentVariant.qlearning }.learn s a r ns) ∧
    (∀ (w c1 c2 : ℚ), calculate_fairness_reward w c1 c2 = (c1 + c2) / 2 - w * |c1 - c2|) := by
  constructor
  · intro ag s a r mc fc ns w
    refine ⟨rfl, rfl, ?_, rfl, rfl⟩
    simp only [dispatchLearn, QLearningAgent.learn_with_fairness, calculate_fairness_reward,
      pyabs_eq_abs]
  · intro w c1 c2
    simp only [calculate_fairness_reward, pyabs_eq_abs]

theorem step_of_get (env : Env) (i : ℤ) (ns : StepNoise) (d : ℚ)
    (h : pyListGet action_space i = Except.ok d) :
    env.step i ns =
      Except.ok ({ env with
          current_temp := clip (env.current_temp + d + ns.temp_noise) env.min_temp env.max_temp },
        clip (env.current_temp + d + ns.temp_noise) env.min_temp env.max_temp,
        (if clip (env.current_temp + d + ns.temp_noise) env.min_temp env.max_temp < 18 ∨
            28 < clip (env.current_temp + d + ns.temp_noise) env.min_temp env.max_temp then
          env.maleRatio * calculate_thermal_comfort_score
              (clip (env.current_temp + d + ns.temp_noise) env.min_temp env.max_temp) Gender.male +
            env.femaleRatio * calculate_thermal_comfort_score
              (clip (env.current_temp + d + ns.temp_noise) env.min_temp env.max_temp) Gender.female
            - 3/10
        else
          env.maleRatio * calculate_thermal_comfort_score
              (clip (env.current_temp + d + ns.temp_noise) env.min_temp env.max_temp) Gender.male +
            env.femaleRatio * calculate_thermal_comfort_score
              (clip (env.current_temp + d + ns.temp_noise) env.min_temp env.max_temp) Gender.female),
        calculate_thermal_comfort_score
          (clip (env.current_temp + d + ns.temp_noise) env.min_temp env.max_temp) Gender.male,
        calculate_thermal_comfort_score
          (clip (env.current_temp + d + ns.temp_noise) env.min_temp env.max_temp) Gender.female,
        { male_tsv := calculate_thermal_sensation_vote
            (clip (env.current_temp + d + ns.temp_noise) env.min_temp env.max_temp) Gender.male
            ns.male_tsv_noise,
          female_tsv := calculate_thermal_sensation_vote
            (clip (env.current_temp + d + ns.temp_noise) env.min_temp env.max_temp) Gender.female
            ns.female_tsv_noise,
          male_preference := calculate_thermal_preference
            (clip (env.current_temp + d + ns.temp_noise) env.min_temp env.max_temp) Gender.male,
          female_preference := calculate_thermal_preference
            (clip (env.current_temp + d + ns.temp_noise) env.min_temp env.max_temp) Gender.female,
          temperature := clip (env.current_temp + d + ns.temp_noise) env.min_temp env.max_temp }) := by
  unfold Env.step
  rw [h]

/-- C7 (confirmed): for every in-range action index and every current
temperature and noise draw, `step` resolves the action index to its delta,
adds the delta and the noise to the current temperature, clamps the sum to
`[min_temp, max_temp]` (so the stored and returned new temperature always
lies in `[min_temp, max_temp]`), and returns the blended reward
`r*comfortA + (1-r)*comfortB` minus a fixed 0.3 penalty exactly when the
new temperature falls outside the fixed acceptable band `[18, 28]` — which
for the default construction is strictly narrower than the hard bounds
`[16, 32]`. -/
theorem step_clamps_and_blends (r tmin tmax cur : ℚ) (i : ℤ) (ns : StepNoise)
    (hb : tmin ≤ tmax) (h0 : 0 ≤ i) (h5 : i < 5) :
    (action_space.get? i.toNat).isSome = true ∧
    (({ mkEnv r tmin tmax with current_temp := cur } : Env).step i ns =
      Except.ok ({ mkEnv r tmin tmax with
          current_temp := clip (cur + (action_space.get? i.toNat).getD 0 + ns.temp_noise)
            tmin tmax },
        clip (cur + (action_space.get? i.toNat).getD 0 + ns.temp_noise) tmin tmax,
        r * calculate_thermal_comfort_score
            (clip (cur + (action_space.get? i.toNat).getD 0 + ns.temp_noise) tmin tmax)
            Gender.male +
          (1 - r) * calculate_thermal_comfort_score
            (clip (cur + (action_space.get? i.toNat).getD 0 + ns.temp_noise) tmin tmax)
            Gender.female -
          (if clip (cur + (action_space.get? i.toNat).getD 0 + ns.temp_noise) tmin tmax < 18 ∨
              28 < clip (cur + (action_space.get? i.toNat).getD 0 + ns.temp_noise) tmin tmax then
            (3 : ℚ)/10
          else 0),
        calculate_thermal_comfort_score
          (clip (cur + (action_space.get? i.toNat).getD 0 + ns.temp_noise) tmin tmax) Gender.male,
        calculate_thermal_comfort_score
          (clip (cur + (action_space.get? i.toNat).getD 0 + ns.temp_noise) tmin tmax) Gender.female,
        { male_tsv := calculate_thermal_sensation_vote
            (clip (cur + (action_space.get? i.toNat).getD 0 + ns.temp_noise) tmin tmax) Gender.male
            ns.male_tsv_noise,
          female_tsv := calculate_thermal_sensation_vote
            (clip (cur + (action_space.get? i.toNat).getD 0 + ns.temp_noise) tmin tmax)
            Gender.female ns.female_tsv_noise,
          male_preference := calculate_thermal_preference
            (clip (cur + (action_space.get? i.toNat).getD 0 + ns.temp_noise) tmin tmax) Gender.male,
          female_preference := calculate_thermal_preference
            (clip (cur + (action_space.get? i.toNat).getD 0 + ns.temp_noise) tmin tmax)
            Gender.female,
          temperature := clip (cur + (action_space.get? i.toNat).getD 0 + ns.temp_noise)
            tmin tmax })) ∧
    (tmin ≤ clip (cur + (action_space.get? i.toNat).getD 0 + ns.temp_noise) tmin tmax ∧
      clip (cur + (action_space.get? i.toNat).getD 0 + ns.temp_noise) tmin tmax ≤ tmax) ∧
    ((mkEnv r).min_temp < 18 ∧ 28 < (mkEnv r).max_temp) := by
  have hlen : ((action_space.length : ℤ)) = 5 := by decide
  obtain ⟨x, hget, hok⟩ := pyListGet_ok action_space i h0 (by omega)
  have hgetD : (action_space.get? i.toNat).getD 0 = x := by rw [hget]; rfl
  refine ⟨by rw [hget]; rfl, ?_,
    ⟨by rw [hgetD]; exact clip_lower _ _ _ hb, by rw [hgetD]; exact clip_upper _ _ _⟩,
    by norm_num [mkEnv], by norm_num [mkEnv]⟩
  rw [hgetD, step_of_get _ _ _ x hok]
  refine congrArg Except.ok ?_
  simp only [Prod.mk.injEq]
  refine ⟨rfl, rfl, ?_, rfl, rfl, rfl⟩
  simp only [mkEnv]
  split_ifs <;> ring_nf

/-- Witness for C7 at male ratio 1/2, default bounds, current temperature
22, action index 0 and zero noise. -/
theorem step_clamps_and_blends_witness :
    (16 : ℚ) ≤ 32 ∧ (0 : ℤ) ≤ 0 ∧ (0 : ℤ) < 5 ∧
    (16 ≤ clip (22 + (action_space.get? (0 : ℤ).toNat).getD 0 + zNoise.temp_noise) 16 32 ∧
      clip (22 + (action_space.get? (0 : ℤ).toNat).getD 0 + zNoise.temp_noise) 16 32 ≤ 32) :=
  ⟨by norm_num, by norm_num, by norm_num,
    (step_clamps_and_blends (1/2) 16 32 22 0 zNoise (by norm_num) (by norm_num)
      (by norm_num)).2.2.1⟩

/-- C10 (confirmed): `discretize_state` takes its bounds as optional
parameters defaulting to 16.0 and 32.0, and both the training step and the
evaluation step discretize the next temperature through that default call —
so the state index used for every Q-table lookup and update equals the
discretization of the temperature over the fixed range `[16, 32]`,
independent of the environment's configured `min_temp`/`max_temp`. -/
theorem state_discretized_over_default_bounds :
    (∀ (ag : QLearningAgent) (t : ℚ), ag.discretize_state t = ag.discretize_state t 16 32) ∧
    (∀ (ag : QLearningAgent) (env : Env) (state : ℤ) (ins : StepInputs)
        (env2 : Env) (nt rwd mc fc : ℚ) (info : Info),
      env.step (ag.choose_action state ins.rnd ins.randPick) ins.ns =
          Except.ok (env2, nt, rwd, mc, fc, info) →
      train_step ag env state ins = Except.ok
        (dispatchLearn ag state (ag.choose_action state ins.rnd ins.randPick) rwd mc fc
            (ag.discretize_state nt 16 32),
          env2, ag.discretize_state nt 16 32, nt, rwd, mc, fc)) ∧
    (∀ (ag : QLearningAgent) (env : Env) (state : ℤ) (m : EvalMetrics) (ins : StepInputs)
        (env2 : Env) (nt rwd mc fc : ℚ) (info : Info),
      env.step (ag.choose_action state ins.rnd ins.randPick) ins.ns =
          Except.ok (env2, nt, rwd, mc, fc, info) →
      eval_step ag env state m ins = Except.ok
        (env2, ag.discretize_state nt 16 32, pushEvalObs m nt mc fc info)) := by
  refine ⟨fun ag t => rfl, ?_, ?_⟩
  · intro ag env state ins env2 nt rwd mc fc info h
    unfold train_step
    rw [h]
  · intro ag env state m ins env2 nt rwd mc fc info h
    unfold eval_step
    rw [h]

/-- Witness for C10: a concrete training step on an environment with
non-default hard bounds `[20, 30]`; the next state is still
`discretize_state(new_temp, 16, 32)`. -/
theorem state_discretized_over_default_bounds_witness :
    dEnv2030.step (dAg.choose_action 0 (cIns 0 0).rnd (cIns 0 0).randPick) (cIns 0 0).ns =
      Except.ok (dEnv2030stepped, 21, 41/80, 4/5, 9/40, dInfo21) ∧
    train_step dAg dEnv2030 0 (cIns 0 0) = Except.ok
      (dispatchLearn dAg 0 (dAg.choose_action 0 (cIns 0 0).rnd (cIns 0 0).randPick) (41/80)
          (4/5) (9/40) (dAg.discretize_state 21 16 32),
        dEnv2030stepped, dAg.discretize_state 21 16 32, 21, 41/80, 4/5, 9/40) :=
  ⟨by decide!,
    state_discretized_over_default_bounds.2.1 dAg dEnv2030 0 (cIns 0 0) dEnv2030stepped 21
      (41/80) (4/5) (9/40) dInfo21 (by decide!)⟩

theorem learnSeq_epsilon_bounds (us : List (ℤ × ℤ × ℚ × ℤ)) : ∀ (ag : QLearningAgent),
    0 ≤ ag.min_epsilon → ag.min_epsilon ≤ ag.epsilon → 0 ≤ ag.epsilon_decay →
    ag.epsilon_decay ≤ 1 →
    ag.min_epsilon ≤ (learnSeq ag us).epsilon ∧ (learnSeq ag us).epsilon ≤ ag.epsilon := by
  induction us with
  | nil => exact fun ag _ h1 _ _ => ⟨h1, le_refl _⟩
  | cons u us ih =>
    intro ag h0 h1 h2 h3
    have hε0 : 0 ≤ ag.epsilon := le_trans h0 h1
    have hstep : ag.min_epsilon ≤ (ag.learn u.1 u.2.1 u.2.2.1 u.2.2.2).epsilon ∧
        (ag.learn u.1 u.2.1 u.2.2.1 u.2.2.2).epsilon ≤ ag.epsilon := by
      simp only [QLearningAgent.learn]
      split_ifs
      · unfold pymax
        split_ifs with hc
        · exact ⟨hc, by nlinarith⟩
        · exact ⟨le_refl _, h1⟩
      · exact ⟨h1, le_refl _⟩
    have hrec := ih (ag.learn u.1 u.2.1 u.2.2.1 u.2.2.2) h0 hstep.1 h2 h3
    exact ⟨hrec.1, le_trans hrec.2 hstep.2⟩

/-- C3 (amended): for an agent whose epsilon evolves only through `learn`
updates — with `0 ≤ min_epsilon ≤ epsilon` and decay factor in `[0, 1]` —
epsilon stays in `[min_epsilon, initial epsilon]` after any sequence of
updates, and a single update changes epsilon only when the incremented
total-update counter is a multiple of 500, where it becomes
`max(min_epsilon, epsilon * decay)`.  The claim's stronger assertion that
*every* reachable program state keeps epsilon in that interval fails:
evaluation temporarily forces epsilon to 0.0, below `min_epsilon` (see the
counterexample), restoring it only on normal return. -/
theorem epsilon_learn_invariant (ag : QLearningAgent) (us : List (ℤ × ℤ × ℚ × ℤ))
    (h0 : 0 ≤ ag.min_epsilon) (h1 : ag.min_epsilon ≤ ag.epsilon)
    (h2 : 0 ≤ ag.epsilon_decay) (h3 : ag.epsilon_decay ≤ 1) :
    (ag.min_epsilon ≤ (learnSeq ag us).epsilon ∧ (learnSeq ag us).epsilon ≤ ag.epsilon) ∧
    (∀ (b : QLearningAgent) (s a : ℤ) (r : ℚ) (ns : ℤ),
      (b.learn s a r ns).epsilon =
        if (b.total_updates + 1) % 500 = 0 then
          pymax b.min_epsilon (b.epsilon * b.epsilon_decay)
        else b.epsilon) :=
  ⟨learnSeq_epsilon_bounds us ag h0 h1 h2 h3, fun _ _ _ _ _ => rfl⟩

/-- Witness for the amended C3 theorem: the default agent after one update. -/
theorem epsilon_learn_invariant_witness :
    (0 : ℚ) ≤ dAg.min_epsilon ∧ dAg.min_epsilon ≤ dAg.epsilon ∧
    (0 : ℚ) ≤ dAg.epsilon_decay ∧ dAg.epsilon_decay ≤ 1 ∧
    (dAg.min_epsilon ≤ (learnSeq dAg [(0, 0, 1, 1)]).epsilon ∧
      (learnSeq dAg [(0, 0, 1, 1)]).epsilon ≤ dAg.epsilon) :=
  ⟨by decide!, by decide!, by decide!, by decide!,
    (epsilon_learn_invariant dAg [(0, 0, 1, 1)] (by decide!) (by decide!) (by decide!)
      (by decide!)).1⟩

/-- Counterexample to C3 as stated: the epsilon-0 agent state installed by
`evaluate_agent_comprehensive` at the top of every evaluation (the
`agent.epsilon = 0.0` assignment, modelled by `evalModeAgent`, in force for
the entire evaluation loop) is a reachable program state whose epsilon lies
strictly below `min_epsilon` for the default agent, which does satisfy the
claim's premise `initial epsilon ≥ min_epsilon`. -/
theorem epsilon_eval_mode_cex :
    (evalModeAgent dAg).epsilon < dAg.min_epsilon ∧ dAg.min_epsilon ≤ dAg.epsilon := by
  refine ⟨by decide!, by decide!⟩

/-- C1 (amended): when `evaluate_agent_comprehensive` returns normally, the
caller's agent is left exactly as before the call (epsilon restored from
the saved `original_epsilon`); but when evaluation raises, the exception
propagates with the agent's epsilon left at 0.0 — the save/restore is a
plain pair of assignments with no `try/finally`, so it is *not* guaranteed
on the failure path, contrary to the claim as stated. -/
theorem eval_epsilon_save_restore (ag : QLearningAgent) (mr : ℚ) (episodes steps : ℕ)
    (ro : ℕ → ℚ) (ins : ℕ → ℕ → StepInputs) :
    (exceptOk (evaluate_agent_comprehensive ag mr episodes steps ro ins).1 = true →
      (evaluate_agent_comprehensive ag mr episodes steps ro ins).2 = ag) ∧
    (exceptOk (evaluate_agent_comprehensive ag mr episodes steps ro ins).1 = false →
      (evaluate_agent_comprehensive ag mr episodes steps ro ins).2.epsilon = 0) := by
  unfold evaluate_agent_comprehensive
  rcases h : eval_outer (evalModeAgent ag) steps ro ins (mkEnv mr) emptyEvalMetrics 0 episodes
    with e | m <;> simp only [h]
  · exact ⟨fun hok => Bool.noConfusion hok, fun _ => rfl⟩
  · exact ⟨fun _ => rfl, fun hbad => Bool.noConfusion hbad⟩

/-- Witness for the amended C1 theorem: a 1-episode, 1-step evaluation of
the default agent returns normally and hands back the agent unchanged. -/
theorem eval_epsilon_save_restore_witness :
    exceptOk (evaluate_agent_comprehensive dAg (1/2) 1 1 cRo cIns).1 = true ∧
    (evaluate_agent_comprehensive dAg (1/2) 1 1 cRo cIns).2 = dAg :=
  ⟨by decide!, (eval_epsilon_save_restore dAg (1/2) 1 1 cRo cIns).1 (by decide!)⟩

/-- Counterexample to C1 as stated: evaluating `agent6` (action-space size
6, Q-table preferring column 5 — a state reachable through the public
constructor and training) raises the out-of-range `IndexError` inside the
loop, and after the failing call the agent's epsilon is 0.0, not its
pre-call value 0.3: the save/restore is not exception-safe. -/
theorem eval_epsilon_not_restored_cex :
    exceptOk (evaluate_agent_comprehensive agent6 (1/2) 1 1 cRo cIns).1 = false ∧
    (evaluate_agent_comprehensive agent6 (1/2) 1 1 cRo cIns).2.epsilon = 0 ∧
    agent6.epsilon = 3/10 := by
  refine ⟨by decide!, by decide!, by decide!⟩

theorem learn_q_self (ag : QLearningAgent) (s a : ℤ) (r : ℚ) (ns : ℤ) :
    (ag.learn s a r ns).q_table s a =
      ag.q_table s a +
        ag.alpha * (r + ag.gamma * rowMax (ag.q_table ns) ag.action_space_size -
          ag.q_table s a) := by
  simp only [QLearningAgent.learn, eq_self_iff_true, and_self, ite_true]

theorem learn_q_ne (ag : QLearningAgent) (s a : ℤ) (r : ℚ) (ns : ℤ) (s2 a2 : ℤ)
    (h : ¬ (s2 = s ∧ a2 = a)) :
    (ag.learn s a r ns).q_table s2 a2 = ag.q_table s2 a2 := by
  simp only [QLearningAgent.learn]
  rw [if_neg h]

theorem learnIter_alpha (ag : QLearningAgent) (s a : ℤ) (r : ℚ) (ns : ℤ) :
    ∀ n, (learnIter ag s a r ns n).alpha = ag.alpha := by
  intro n
  induction n with
  | zero => rfl
  | succ m ih => exact ih

theorem learnIter_gamma (ag : QLearningAgent) (s a : ℤ) (r : ℚ) (ns : ℤ) :
    ∀ n, (learnIter ag s a r ns n).gamma = ag.gamma := by
  intro n
  induction n with
  | zero => rfl
  | succ m ih => exact ih

theorem learnIter_size (ag : QLearningAgent) (s a : ℤ) (r : ℚ) (ns : ℤ) :
    ∀ n, (learnIter ag s a r ns n).action_space_size = ag.action_space_size := by
  intro n
  induction n with
  | zero => rfl
  | succ m ih => exact ih

theorem learnIter_row (ag : QLearningAgent) (s a : ℤ) (r : ℚ) (ns : ℤ) (h : ns ≠ s) :
    ∀ n a2, (learnIter ag s a r ns n).q_table ns a2 = ag.q_table ns a2 := by
  intro n
  induction n with
  | zero => exact fun a2 => rfl
  | succ m ih =>
    intro a2
    have := learn_q_ne (learnIter ag s a r ns m) s a r ns ns a2 (fun hc => h hc.1)
    exact this.trans (ih a2)

theorem rowMax_congr (f g : ℤ → ℚ) (h : ∀ a2, f a2 = g a2) :
    ∀ n, rowMax f n = rowMax g n := by
  intro n
  induction n with
  | zero => rfl
  | succ m ih =>
    cases m with
    | zero => exact h 0
    | succ k =>
      simp only [rowMax]
      rw [ih, h]

theorem learnIter_q_closed (ag : QLearningAgent) (s a : ℤ) (r : ℚ) (ns : ℤ) (h : ns ≠ s) :
    ∀ n, (learnIter ag s a r ns n).q_table s a =
      (r + ag.gamma * rowMax (ag.q_table ns) ag.action_space_size) +
        (1 - ag.alpha) ^ n *
          (ag.q_table s a - (r + ag.gamma * rowMax (ag.q_table ns) ag.action_space_size)) := by
  intro n
  induction n with
  | zero =>
    simp only [learnIter, pow_zero, one_mul]
    ring
  | succ m ih =>
    have hrow := learnIter_row ag s a r ns h m
    show ((learnIter ag s a r ns m).learn s a r ns).q_table s a = _
    rw [learn_q_self, learnIter_alpha, learnIter_gamma, learnIter_size,
      rowMax_congr _ _ hrow, ih]
    ring

theorem learnIter_q_tendsto (ag : QLearningAgent) (s a : ℤ) (r : ℚ) (ns : ℤ)
    (h : ns ≠ s) (h0 : 0 < ag.alpha) (h2 : ag.alpha < 2) :
    Filter.Tendsto (fun n => (learnIter ag s a r ns n).q_table s a) Filter.atTop
      (nhds (r + ag.gamma * rowMax (ag.q_table ns) ag.action_space_size)) := by
  have hclosed := learnIter_q_closed ag s a r ns h
  have habs : |1 - ag.alpha| < 1 := abs_lt.mpr ⟨by linarith, by linarith⟩
  have hpow : Filter.Tendsto (fun n : ℕ => (1 - ag.alpha) ^ n) Filter.atTop (nhds 0) :=
    tendsto_pow_atTop_nhds_zero_iff.mpr habs
  have hlim := Filter.Tendsto.const_add
    (r + ag.gamma * rowMax (ag.q_table ns) ag.action_space_size)
    (hpow.mul_const
      (ag.q_table s a - (r + ag.gamma * rowMax (ag.q_table ns) ag.action_space_size)))
  refine Filter.Tendsto.congr (fun n => (hclosed n).symm) ?_
  simpa using hlim

/-- C8 (amended): a single `learn(s, a, r, ns)` call moves `table[s, a]` to
`table[s, a] + alpha * (r + gamma * max(table[ns]) - table[s, a])` and
increments the update counter by one (as the claim states); but repeatedly
updating the same `(s, a)` with constant reward while the next-state row
does not change converges `table[s, a]` to
`r + gamma * max(table[ns])` — the claimed limit `r / (1 - gamma)` is
attained only when `max(table[ns])` happens to equal `r / (1 - gamma)`,
not in general (see the counterexample). -/
theorem bellman_update_convergence :
    (∀ (b : QLearningAgent) (s a : ℤ) (r : ℚ) (ns : ℤ),
      (b.learn s a r ns).q_table s a =
        b.q_table s a +
          b.alpha * (r + b.gamma * rowMax (b.q_table ns) b.action_space_size -
            b.q_table s a) ∧
      (b.learn s a r ns).total_updates = b.total_updates + 1) ∧
    (∀ (b : QLearningAgent) (s a : ℤ) (r : ℚ) (ns : ℤ), ns ≠ s → 0 < b.alpha → b.alpha < 2 →
      Filter.Tendsto (fun n => (learnIter b s a r ns n).q_table s a) Filter.atTop
        (nhds (r + b.gamma * rowMax (b.q_table ns) b.action_space_size))) := by
  constructor
  · exact fun b s a r ns => ⟨learn_q_self b s a r ns, rfl⟩
  · exact fun b s a r ns h h0 h2 => learnIter_q_tendsto b s a r ns h h0 h2

/-- Witness for the amended C8 theorem: the default agent repeatedly
updated at `(0, 0)` with reward 1 and next state 1. -/
theorem bellman_update_convergence_witness :
    (1 : ℤ) ≠ 0 ∧ (0 : ℚ) < dAg.alpha ∧ dAg.alpha < 2 ∧
    Filter.Tendsto (fun n => (learnIter dAg 0 0 1 1 n).q_table 0 0) Filter.atTop
      (nhds (1 + dAg.gamma * rowMax (dAg.q_table 1) dAg.action_space_size)) :=
  ⟨by decide, by decide!, by decide!,
    bellman_update_convergence.2 dAg 0 0 1 1 (by decide) (by decide!) (by decide!)⟩

/-- Counterexample to C8's convergence statement as written: repeatedly
calling `learn(0, 0, 1, 1)` on a fresh default agent (`alpha = 0.1`,
`gamma = 0.9`) keeps the next-state row 1 identically zero — the updates
only write entry `(0, 0)` — yet `table[0, 0]` converges to
`r + gamma * 0 = 1`, not to `r / (1 - gamma) = 1 / (1 - 9/10) = 10`. -/
theorem bellman_limit_cex :
    Filter.Tendsto (fun n => (learnIter dAg 0 0 1 1 n).q_table 0 0) Filter.atTop (nhds 1) ∧
    ¬ Filter.Tendsto (fun n => (learnIter dAg 0 0 1 1 n).q_table 0 0) Filter.atTop
        (nhds ((1 : ℚ) / (1 - 9/10))) := by
  have h1 := learnIter_q_tendsto dAg 0 0 1 1 (by decide) (by decide!) (by decide!)
  have hL : (1 : ℚ) + dAg.gamma * rowMax (dAg.q_table 1) dAg.action_space_size = 1 := by
    decide!
  rw [hL] at h1
  refine ⟨h1, fun hbad => ?_⟩
  have hcontra := tendsto_nhds_unique h1 hbad
  norm_num at hcontra
